import Mathlib

set_option linter.unusedVariables false

/-!
# order-go: a shallow embedding of the order service bootstrap

Sources embedded here:

* `src/util/logger.go`       : `NewLogger`, `LoggerMiddleware`, `RequestIDLogger`, the `Logger` adapter
* `src/order/server.go`      : `Server`, `NewServer`, `NewRedisClient`, `Server.InitPromReg`
* `src/cmd/order/root.go`    : the flag variables, `Execute`
* `src/cmd/order/runserver.go` : `runServer`

Conventions.

* A Go `error` is its message (`GoError`); a `(T, error)` result is an `Except GoError T`.
* Effects (the stdout sink of zap and `fmt.Println`, stderr, the clock) are threaded through an
  explicit `World`.
* `os.Exit` ends the computation with `cmd.Status.exited code`.
* Third-party code (zap's `Config.Build`, go-redis' `ParseURL`), the functions of this repository
  that are not part of the sources (`util.NewRouter`, `util.RequestIDFromContext`) and the method
  `Server.Run`, whose body is empty in the sources, are parameters, collected in `Env` or passed
  explicitly.
-/

/-- A Go error value, identified with the text of `err.Error()`. -/
abbrev GoError := String

namespace errors

/-- The function `errors.Wrap` of github.com/pkg/errors: the message is put in front of the cause. -/
def Wrap (err : GoError) (message : String) : GoError :=
  message ++ ": " ++ err

end errors

/-! ## zap -/

namespace zap

/-- The levels of `zapcore.Level`. -/
inductive Level where
  | DebugLevel
  | InfoLevel
  | WarnLevel
  | ErrorLevel
  | DPanicLevel
  | PanicLevel
  | FatalLevel
deriving DecidableEq, Repr

/-- The numeric value of a `zapcore.Level` (`DebugLevel = -1`, `InfoLevel = 0`, ...). -/
def Level.toInt : Level → Int
  | .DebugLevel => -1
  | .InfoLevel => 0
  | .WarnLevel => 1
  | .ErrorLevel => 2
  | .DPanicLevel => 3
  | .PanicLevel => 4
  | .FatalLevel => 5

/-- The method `Level.Enabled`: with the logger at level `l`, an entry of level `lvl` is written
exactly when `lvl >= l`. -/
def Level.Enabled (l lvl : Level) : Bool :=
  decide (l.toInt ≤ lvl.toInt)

/-- The values that the embedded code attaches to log fields: strings and `time.Duration`s. -/
inductive Value where
  | str (s : String)
  | duration (d : Int)
deriving DecidableEq, Repr

/-- A structured log field: key and value. -/
abbrev Field := String × Value

/-- A log entry as handed to the sink: level, timestamp, message, and the fields (those of the
logger's context first, then those of the call). -/
structure Entry where
  Level : Level
  Time : Int
  Message : String
  Fields : List Field
deriving DecidableEq, Repr

/-- The encoder configurations; only the production one is used. -/
inductive EncoderConfig where
  | production
deriving DecidableEq, Repr

/-- What `zap.NewProductionEncoderConfig` returns. -/
def NewProductionEncoderConfig : EncoderConfig := .production

/-- The fields of `zap.Config` that `NewLogger` sets. `InitialFields` is a Go map, `none` when nil. -/
structure Config where
  Development : Bool
  DisableCaller : Bool
  DisableStacktrace : Bool
  EncoderConfig : EncoderConfig
  Encoding : String
  ErrorOutputPaths : List String
  Level : Level
  OutputPaths : List String
  InitialFields : Option (List Field) := none
deriving DecidableEq, Repr

/-- A `*zap.Logger`: the level of its core and the fields of its context. -/
structure Logger where
  level : Level
  context : List Field
deriving DecidableEq, Repr

/-- A `*zap.SugaredLogger` wraps a `*zap.Logger`. -/
structure SugaredLogger where
  base : Logger
deriving DecidableEq, Repr

end zap

/-! ## The world -/

/-- One item written to standard output: a line of `fmt.Println` or an entry of the zap sink
(`OutputPaths: stdout`). -/
inductive Output where
  | println (s : String)
  | entry (e : zap.Entry)
deriving DecidableEq, Repr

/-- The observable state outside the program: the clock, standard output and standard error. -/
structure World where
  now : Int
  stdout : List Output
  stderr : List String
deriving DecidableEq, Repr

namespace time

/-- The function `time.Now`: reads the clock. -/
def Now (w : World) : Int := w.now

/-- The function `time.Since`: the time elapsed since `start`. -/
def Since (start : Int) (w : World) : Int := w.now - start

end time

namespace fmt

/-- The call `fmt.Println(err)`. -/
def Println (s : String) (w : World) : World :=
  { w with stdout := w.stdout ++ [Output.println s] }

/-- The call `fmt.Fprintln(os.Stderr, err)`. -/
def FprintlnStderr (s : String) (w : World) : World :=
  { w with stderr := w.stderr ++ [s] }

end fmt

namespace zap

/-- The sink: an entry is appended to standard output. -/
def Write (e : Entry) (w : World) : World :=
  { w with stdout := w.stdout ++ [Output.entry e] }

/-- The logging core: an entry of level `lvl` is written to the sink when the logger's level
enables it, with the context fields followed by the fields of the call. -/
def Logger.log (l : Logger) (lvl : Level) (msg : String) (fields : List Field) (w : World) : World :=
  if l.level.Enabled lvl then
    Write { Level := lvl, Time := time.Now w, Message := msg, Fields := l.context ++ fields } w
  else w

/-- The method `Logger.Debug`. -/
def Logger.Debug (l : Logger) (msg : String) (fields : List Field) (w : World) : World :=
  l.log .DebugLevel msg fields w

/-- The method `Logger.With`: a child logger with more context. -/
def Logger.With (l : Logger) (fields : List Field) : Logger :=
  { l with context := l.context ++ fields }

/-- The method `Logger.Sugar`. -/
def Logger.Sugar (l : Logger) : SugaredLogger := { base := l }

/-- The method `SugaredLogger.With`; the alternating keys and values are given as pairs. -/
def SugaredLogger.With (s : SugaredLogger) (kv : List Field) : SugaredLogger :=
  { base := s.base.With kv }

/-- The method `SugaredLogger.Debugw`. -/
def SugaredLogger.Debugw (s : SugaredLogger) (msg : String) (kv : List Field) (w : World) : World :=
  s.base.log .DebugLevel msg kv w

/-- The method `SugaredLogger.Infow`. -/
def SugaredLogger.Infow (s : SugaredLogger) (msg : String) (kv : List Field) (w : World) : World :=
  s.base.log .InfoLevel msg kv w

/-- The successful result of `Config.Build`: a logger at the configured level whose context is the
initial fields, ordered by key. -/
def Config.logger (cfg : Config) : Logger :=
  { level := cfg.Level
    context := List.insertionSort (fun a b => a.1 ≤ b.1) (cfg.InitialFields.getD []) }

end zap

/-! ## net/http and context -/

namespace context

/-- A `context.Context`, as the values it carries. -/
abbrev Context := List (String × String)

end context

namespace http

/-- The fields of `*http.Request` that the code reads. A handler receives the request through a
pointer and may change these fields. -/
structure Request where
  RemoteAddr : String
  Method : String
  RequestURI : String
  ctx : context.Context
deriving DecidableEq, Repr

/-- The method `Request.Context`. -/
def Request.Context (r : Request) : context.Context := r.ctx

/-- The state behind an `http.ResponseWriter`: status (`none` until written), headers and body. -/
structure ResponseWriter where
  status : Option Nat
  header : List (String × String)
  body : String
deriving DecidableEq, Repr

/-- An `http.Handler`: `ServeHTTP(w, r)` may write to `w`, may change the request behind the
pointer `r` and may act on the world; it returns the writer and the request as it leaves them. -/
abbrev Handler := ResponseWriter → Request → World → ResponseWriter × Request × World

/-- The struct `http.Server`, by its address. -/
structure Server where
  Addr : String
deriving DecidableEq, Repr

end http

/-! ## go-redis -/

namespace redis

/-- The fields of `redis.Options` that `ParseURL` fills in. -/
structure Options where
  Network : String := ""
  Addr : String := ""
  Password : String := ""
  DB : Int := 0
  TLSServerName : Option String := none
deriving DecidableEq, Repr

/-- A `*redis.Client`, by the options it was created from. -/
structure Client where
  opt : Options
deriving DecidableEq, Repr

/-- The function `redis.NewClient`. -/
def NewClient (opt : Options) : Client := { opt := opt }

end redis

/-! ## The environment -/

/-- The code outside the sources. `Build cfg` is the error of zap's `cfg.Build()`, if any;
`ParseURL` is go-redis' `redis.ParseURL`; `NewRouter` is `util.NewRouter()` and
`RequestIDFromContext` is `util.RequestIDFromContext`, both of this repository but not among the
source files. `ρ` is the type of `*mux.Router`. -/
structure Env (ρ : Type) where
  Build : zap.Config → Option GoError
  ParseURL : String → Except GoError redis.Options
  NewRouter : ρ
  RequestIDFromContext : context.Context → String

/-- The method `zap.Config.Build`: fails when the environment says so, and otherwise yields the
logger described by the configuration. -/
def zap.Config.Build {ρ : Type} (env : Env ρ) (cfg : zap.Config) : Except GoError zap.Logger :=
  match env.Build cfg with
  | some err => .error err
  | none => .ok cfg.logger

/-! ## package util (src/util/logger.go) -/

namespace util

/-- Logger is an adapter type for zap's SugaredLogger. -/
structure Logger where
  logger : zap.SugaredLogger
deriving DecidableEq, Repr

/-- NewLogger creates a new Logger (logger.go, lines 18-59). -/
def NewLogger {ρ : Type} (env : Env ρ) (level serviceName : String) (w : World) :
    Except GoError Logger × World :=
  let (level, atom) :=
    match level with
    | "debug" => (level, zap.Level.DebugLevel)
    | "warn" => (level, zap.Level.WarnLevel)
    | "error" => (level, zap.Level.ErrorLevel)
    | _ => ("info", zap.Level.InfoLevel)
  let cfg : zap.Config :=
    { Development := false
      DisableCaller := true
      DisableStacktrace := false
      EncoderConfig := zap.NewProductionEncoderConfig
      Encoding := "json"
      ErrorOutputPaths := ["stdout"]
      Level := atom
      OutputPaths := ["stdout"] }
  let cfg : zap.Config :=
    if cfg.InitialFields = none then { cfg with InitialFields := some [] } else cfg
  let fields : List zap.Field :=
    (cfg.InitialFields.getD []).filter (fun f => f.1 ≠ "service") ++
      [("service", zap.Value.str serviceName)]
  let cfg : zap.Config := { cfg with InitialFields := some fields }
  match zap.Config.Build env cfg with
  | .error err => (.error (errors.Wrap err "Unable to initialize zap logger"), w)
  | .ok l =>
    let w := l.Debug "Logger Created" [("level", zap.Value.str level)] w
    (.ok { logger := l.Sugar }, w)

/-- Infow logs at info level with key-value pairs (logger.go, lines 109-111). -/
def Logger.Infow (l : Logger) (msg : String) (kv : List zap.Field) (w : World) : World :=
  l.logger.Infow msg kv w

/-- Debugw logs at debug level with key-value pairs (logger.go, lines 150-152). -/
def Logger.Debugw (l : Logger) (msg : String) (kv : List zap.Field) (w : World) : World :=
  l.logger.Debugw msg kv w

/-- RequestIDLogger extracts the requestID from the request context, adds it to a child logger and
returns the child logger (logger.go, lines 83-87). -/
def RequestIDLogger {ρ : Type} (env : Env ρ) (l : Logger) (r : http.Request) : Logger :=
  let reqID := env.RequestIDFromContext r.Context
  let log := l.logger.With [("requestID", zap.Value.str reqID)]
  { logger := log }

/-- LoggerMiddleware is a decorator for a HTTP request, adding structured logging
(logger.go, lines 62-79). The child logger is created before the inner handler runs; the fields of
the completed line are read from the request after the inner handler has returned. -/
def LoggerMiddleware {ρ : Type} (env : Env ρ) (inner : http.Handler) (logger : Logger) :
    http.Handler :=
  fun w r s =>
    let start := time.Now s
    let log := RequestIDLogger env logger r
    let s := log.Debugw "request received"
      [("address", zap.Value.str r.RemoteAddr),
       ("method", zap.Value.str r.Method),
       ("path", zap.Value.str r.RequestURI)] s
    let (w, r, s) := inner w r s
    let s := log.Infow "request completed"
      [("address", zap.Value.str r.RemoteAddr),
       ("method", zap.Value.str r.Method),
       ("path", zap.Value.str r.RequestURI),
       ("duration", zap.Value.duration (time.Since start s))] s
    (w, r, s)

end util

/-! ## prometheus -/

namespace prometheus

/-- Modelled from the spec: the collectors of the program, each identified by what it collects.
The Go runtime collector and the process collector come from the prometheus library; the other
four are the fields of the package variable `rm`, which is not declared in the sources and which
the spec names the in-flight gauge, the request counter, the duration histogram and the
response-size histogram. -/
inductive Collector where
  | GoCollector
  | ProcessCollector
  | InFlightGauge
  | Counter
  | Duration
  | ResponseSize
deriving DecidableEq, Repr

/-- The function `prometheus.NewGoCollector`. -/
def NewGoCollector : Collector := .GoCollector

/-- The options of the process collector; `InitPromReg` passes the empty ones. -/
structure ProcessCollectorOpts where
  Namespace : String := ""
deriving DecidableEq, Repr

/-- The function `prometheus.NewProcessCollector`. -/
def NewProcessCollector (opts : ProcessCollectorOpts) : Collector := .ProcessCollector

/-- A `*prometheus.Registry`, as the collectors registered so far. -/
abbrev Registry := List Collector

/-- The function `prometheus.NewRegistry`: an empty registry. -/
def NewRegistry : Registry := []

/-- The method `Registry.Register`: a collector that is already registered is refused. -/
def Registry.Register (r : Registry) (c : Collector) : Except GoError Registry :=
  if c ∈ r then .error "duplicate metrics collector registration attempted"
  else .ok (r ++ [c])

/-- The method `Registry.MustRegister`: registers the collectors in order and panics on the first
error; the panic is the `Except.error` case. -/
def Registry.MustRegister (r : Registry) : List Collector → Except GoError Registry
  | [] => .ok r
  | c :: cs =>
    match r.Register c with
    | .error err => .error err
    | .ok r => Registry.MustRegister r cs

end prometheus

/-! ## package order (src/order/server.go) -/

namespace order

/-- The constant `serviceName`. -/
def serviceName : String := "order"

/-- The constant `nextIDKey`. -/
def nextIDKey : String := "nextID"

/-- The constant `orderKeyNamespace`. -/
def orderKeyNamespace : String := serviceName

/-- Server is a wrapper for a HTTP server, with dependencies attached. Pointer fields that may be
nil are options; `ρ` is the type of `*mux.Router`. -/
structure Server (ρ : Type) where
  address : String := ""
  endpoint : String := ""
  itemService : String := ""
  redis : Option redis.Client := none
  redisOps : Nat := 0
  server : Option http.Server := none
  router : ρ
  logger : util.Logger
  promReg : prometheus.Registry
deriving DecidableEq, Repr

/-- ServerOptions sets options when creating a new server: a `func(*Server) error`, here a
function that returns the modified server or the error. -/
abbrev ServerOptions (ρ : Type) := Server ρ → Except GoError (Server ρ)

/-- NewRedisClient creates a new go-redis/redis client according to passed options
(server.go, lines 65-78). -/
def NewRedisClient {ρ : Type} (env : Env ρ) (addr : String) : Except GoError redis.Client :=
  match env.ParseURL addr with
  | .error err => .error err
  | .ok opt =>
    let c := redis.NewClient { Addr := opt.Addr, Password := opt.Password, DB := opt.DB }
    .ok c

/-- NewServer creates a new Server according to options (server.go, lines 37-61).

The error of `NewRedisClient` is discarded (`rc, _ :=`), so `rc` is nil when it fails. The loop
over `options` is commented out in the source and `options` is never read. The source body stops
after the struct literal, with no return statement; the embedding returns the constructed `s` and
a nil error there, the result that `runServer` goes on to use. -/
def NewServer {ρ : Type} (env : Env ρ) (options : List (ServerOptions ρ)) (w : World) :
    Except GoError (Server ρ) × World :=
  match util.NewLogger env "info" serviceName w with
  | (.error err, w) => (.error (errors.Wrap err "unable to create Logger"), w)
  | (.ok logger, w) =>
    let rc : Option redis.Client :=
      match NewRedisClient env "redis://127.0.0.1:6380/0" with
      | .ok c => some c
      | .error _ => none
    let s : Server ρ :=
      { address := ":8090"
        endpoint := "http://127.0.0.1:8091"
        itemService := "http://127.0.0.1:8080"
        redis := rc
        logger := logger
        router := env.NewRouter
        promReg := prometheus.NewRegistry }
    (.ok s, w)

/-- The request metrics behind the package variable `rm`. -/
structure RequestMetrics where
  InFlightGauge : prometheus.Collector
  Counter : prometheus.Collector
  Duration : prometheus.Collector
  ResponseSize : prometheus.Collector
deriving DecidableEq, Repr

/-- Modelled from the spec: the package variable `rm`, used by `InitPromReg` but not declared in
the sources; its four fields are the in-flight gauge, the request counter, the duration histogram
and the response-size histogram of the spec. -/
def rm : RequestMetrics :=
  { InFlightGauge := prometheus.Collector.InFlightGauge
    Counter := prometheus.Collector.Counter
    Duration := prometheus.Collector.Duration
    ResponseSize := prometheus.Collector.ResponseSize }

/-- InitPromReg initializes a custom Prometheus registry with Collectors (server.go, lines 86-92).
A panic of `MustRegister` is the `Except.error` case. -/
def Server.InitPromReg {ρ : Type} (s : Server ρ) : Except GoError (Server ρ) :=
  match s.promReg.MustRegister
      [prometheus.NewGoCollector,
       prometheus.NewProcessCollector {},
       rm.InFlightGauge, rm.Counter, rm.Duration, rm.ResponseSize] with
  | .error err => .error err
  | .ok reg => .ok { s with promReg := reg }

end order

/-! ## package main (src/cmd/order) -/

namespace cmd

/-- The package variables bound to the command-line flags (root.go, lines 10-15). -/
structure Flags where
  address : String
  endpoint : String
  logLevel : String
  redis : String
  item : String
deriving DecidableEq, Repr

/-- The initial values of the flag variables, which `init` also declares as the flag defaults
(root.go, lines 10-15 and 32-40). -/
def Flags.defaults : Flags :=
  { address := ":8090"
    endpoint := "127.0.0.1:9091"
    logLevel := "info"
    redis := "redis://127.0.0.1:6380/0"
    item := "http://127.0.0.1:8080" }

/-- The fields of the `cobra.Command` that root.go sets. -/
structure Command where
  Use : String
  Short : String
deriving DecidableEq, Repr

/-- The variable `rootCommand`. -/
def rootCommand : Command :=
  { Use := "order", Short := "Simple HTTP order service" }

/-- How a function of package main ends: it returns, or `os.Exit(code)` ends the process. -/
inductive Status where
  | returned
  | exited (code : Int)
deriving DecidableEq, Repr

/-- The function `runServer` (runserver.go, lines 11-26). `NewServer` stands for `order.NewServer`
and `Run` for the method `Server.Run`, whose body is empty in the sources; `vars` are the package
variables bound to the flags, in scope but never read. -/
def runServer {ρ : Type}
    (NewServer : List (order.ServerOptions ρ) → World → Except GoError (order.Server ρ) × World)
    (Run : order.Server ρ → World → Option GoError × World)
    (vars : Flags) (cmd : Command) (args : List String) (w : World) : Status × World :=
  match NewServer [] w with
  | (.error err, w) =>
    let w := fmt.FprintlnStderr err w
    (.exited 2, w)
  | (.ok s, w) =>
    match Run s w with
    | (some err, w) =>
      let w := fmt.FprintlnStderr err w
      (.exited 3, w)
    | (none, w) => (.returned, w)

/-- What cobra's `rootCommand.Execute()` does with the command line before and instead of calling
the `Run` function of the command: it fails with an error, it handles the command line itself
(help) and returns nil, or it sets the flag variables and calls `Run` with the remaining
arguments. -/
inductive CommandLine where
  | invalid (err : GoError)
  | handled
  | run (vars : Flags) (args : List String)
deriving DecidableEq, Repr

/-- Execute runs the cobra rootCommand (root.go, lines 23-30). What cobra itself prints for an
invalid command line is not part of the world. -/
def Execute {ρ : Type}
    (NewServer : List (order.ServerOptions ρ) → World → Except GoError (order.Server ρ) × World)
    (Run : order.Server ρ → World → Option GoError × World)
    (cl : CommandLine) (w : World) : Status × World :=
  match cl with
  | .invalid err =>
    let w := fmt.Println err w
    (.exited 1, w)
  | .handled => (.returned, w)
  | .run vars args => runServer NewServer Run vars rootCommand args w

end cmd

/-! ## Definitions used to state the theorems -/

/-- The verbosity that the specification gives for a level string: debug, warn and error for
exactly these strings, info for every other string. -/
def util.levelOfString (level : String) : zap.Level :=
  if level = "debug" then zap.Level.DebugLevel
  else if level = "warn" then zap.Level.WarnLevel
  else if level = "error" then zap.Level.ErrorLevel
  else zap.Level.InfoLevel

/-- The zap configuration that `NewLogger` builds for a level and a service name. -/
def util.loggerConfig (lvl : zap.Level) (serviceName : String) : zap.Config :=
  { Development := false
    DisableCaller := true
    DisableStacktrace := false
    EncoderConfig := zap.NewProductionEncoderConfig
    Encoding := "json"
    ErrorOutputPaths := ["stdout"]
    Level := lvl
    OutputPaths := ["stdout"]
    InitialFields := some [("service", zap.Value.str serviceName)] }

/-! ## Concrete inputs -/

namespace Example

/-- An environment in which every dependency can be constructed: the logger always builds, and the
default redis URL and the URL of the comment on `NewRedisClient` parse as that comment says. -/
def env : Env Unit :=
  { Build := fun _ => none
    ParseURL := fun addr =>
      match addr with
      | "redis://127.0.0.1:6380/0" => .ok { Network := "tcp", Addr := "127.0.0.1:6380" }
      | "redis://127.0.0.1:6379/0" => .ok { Network := "tcp", Addr := "127.0.0.1:6379" }
      | "redis://:qwerty@localhost:6379/1" =>
        .ok { Network := "tcp", Addr := "localhost:6379", Password := "qwerty", DB := 1 }
      | _ => .error "invalid redis URL"
    NewRouter := ()
    RequestIDFromContext := fun ctx => (ctx.lookup "requestID").getD "" }

/-- An environment in which the zap logger cannot be built. -/
def envNoLogger : Env Unit :=
  { env with Build := fun _ => some "cannot open sink" }

/-- A world at time 0 with nothing written yet. -/
def world : World := { now := 0, stdout := [], stderr := [] }

/-- A request with correlation identifier abc. -/
def request : http.Request :=
  { RemoteAddr := "10.0.0.1:5000", Method := "GET", RequestURI := "/orders/1",
    ctx := [("requestID", "abc")] }

/-- A response writer to which nothing has been written. -/
def writer : http.ResponseWriter := { status := none, header := [], body := "" }

/-- A handler that fails with status 500 after 7 time units and leaves the request as it is. -/
def failing : http.Handler :=
  fun w r s => ({ w with status := some 500 }, r, { s with now := s.now + 7 })

/-- A handler behind a proxy and a method override, as middleware for forwarded headers does: it
replaces the remote address of the request by the forwarded client address and the method by the
overriding one, then answers with status 200 after 7 time units. -/
def proxied : http.Handler :=
  fun w r s =>
    ({ w with status := some 200 },
     { r with RemoteAddr := "203.0.113.7:41000", Method := "PUT" },
     { s with now := s.now + 7 })

/-- The logger that `NewLogger` creates for service order at the given level. -/
def logger (level : zap.Level) : util.Logger :=
  { logger := { base := { level := level, context := [("service", zap.Value.str "order")] } } }

/-- The server that `NewServer` constructs in the environment `env`. -/
def server : order.Server Unit :=
  { address := ":8090"
    endpoint := "http://127.0.0.1:8091"
    itemService := "http://127.0.0.1:8080"
    redis := some { opt := { Addr := "127.0.0.1:6380" } }
    router := ()
    logger := logger zap.Level.InfoLevel
    promReg := [] }

/-- A `Run` that serves until it is stopped and reports no error. -/
def runOk : order.Server Unit → World → Option GoError × World :=
  fun _ w => (none, { w with now := w.now + 100 })

/-- A `Run` that cannot bind its listener. -/
def runFails : order.Server Unit → World → Option GoError × World :=
  fun _ w => (some "listen tcp :8090: bind: address already in use", w)

/-- A server option that sets the listen address. -/
def setAddress (addr : String) : order.ServerOptions Unit :=
  fun s => .ok { s with address := addr }

/-- A server option that fails. -/
def badOption : order.ServerOptions Unit :=
  fun _ => .error "bad option"

end Example

/-! ## Theorems -/

/-! ### Process exit codes -/

/-- C1: for every outcome of `NewServer` and `Run`: if `NewServer` returns an error, `runServer`
prints it to stderr and exits with code 2, whatever `Run` is (it is not called); if `NewServer`
succeeds and `Run` returns an error, it exits with code 3; if both succeed it returns without
exiting. `Execute` exits with code 1 on a command-line error, and the statuses 2 and 3 differ from
each other, from 0 and from 1. -/
theorem cmd.runServer_exit_codes {ρ : Type}
    (NewServer : List (order.ServerOptions ρ) → World → Except GoError (order.Server ρ) × World)
    (Run : order.Server ρ → World → Option GoError × World)
    (vars : cmd.Flags) (c : cmd.Command) (args : List String) (w : World) :
    (∀ err w1, NewServer [] w = (.error err, w1) →
        cmd.runServer NewServer Run vars c args w = (.exited 2, fmt.FprintlnStderr err w1) ∧
        ∀ Run2, cmd.runServer NewServer Run2 vars c args w =
          cmd.runServer NewServer Run vars c args w) ∧
    (∀ s w1 err w2, NewServer [] w = (.ok s, w1) → Run s w1 = (some err, w2) →
        cmd.runServer NewServer Run vars c args w = (.exited 3, fmt.FprintlnStderr err w2)) ∧
    (∀ s w1 w2, NewServer [] w = (.ok s, w1) → Run s w1 = (none, w2) →
        cmd.runServer NewServer Run vars c args w = (.returned, w2)) ∧
    (∀ err, cmd.Execute NewServer Run (.invalid err) w = (.exited 1, fmt.Println err w)) ∧
    cmd.Status.exited 2 ≠ cmd.Status.exited 3 ∧
    cmd.Status.exited 2 ≠ cmd.Status.exited 0 ∧ cmd.Status.exited 3 ≠ cmd.Status.exited 0 ∧
    cmd.Status.exited 2 ≠ cmd.Status.exited 1 ∧ cmd.Status.exited 3 ≠ cmd.Status.exited 1 := by
  refine ⟨?_, ?_, ?_, ?_, by decide, by decide, by decide, by decide, by decide⟩
  · intro err w1 h
    constructor
    · simp [cmd.runServer, h]
    · intro Run2
      simp [cmd.runServer, h]
  · intro s w1 err w2 h hr
    simp [cmd.runServer, h, hr]
  · intro s w1 w2 h hr
    simp [cmd.runServer, h, hr]
  · intro err
    simp [cmd.Execute]

/-- Witness for C1: in the environment where the logger cannot be built `runServer` exits with 2,
with a `Run` that cannot bind it exits with 3, and with a `Run` that succeeds it returns. -/
theorem cmd.runServer_exit_codes_witness :
    cmd.runServer (order.NewServer Example.envNoLogger) Example.runOk cmd.Flags.defaults
        cmd.rootCommand [] Example.world =
      (.exited 2, fmt.FprintlnStderr
        "unable to create Logger: Unable to initialize zap logger: cannot open sink"
        Example.world) ∧
    cmd.runServer (order.NewServer Example.env) Example.runFails cmd.Flags.defaults
        cmd.rootCommand [] Example.world =
      (.exited 3, fmt.FprintlnStderr "listen tcp :8090: bind: address already in use"
        Example.world) ∧
    cmd.runServer (order.NewServer Example.env) Example.runOk cmd.Flags.defaults
        cmd.rootCommand [] Example.world =
      (.returned, { Example.world with now := 100 }) :=
  ⟨((cmd.runServer_exit_codes (order.NewServer Example.envNoLogger) Example.runOk cmd.Flags.defaults
      cmd.rootCommand [] Example.world).1 _ _ rfl).1,
   (cmd.runServer_exit_codes (order.NewServer Example.env) Example.runFails cmd.Flags.defaults
      cmd.rootCommand [] Example.world).2.1 Example.server Example.world _ _ rfl rfl,
   (cmd.runServer_exit_codes (order.NewServer Example.env) Example.runOk cmd.Flags.defaults
      cmd.rootCommand [] Example.world).2.2.1 Example.server Example.world _ rfl rfl⟩

/-! ### The logger -/

/-- What `NewLogger` computes: it builds `loggerConfig` at the level of the level string, fails
when the build fails, and otherwise returns a logger of that level with the service in its
context. -/
theorem util.NewLogger_eq {ρ : Type} (env : Env ρ) (level serviceName : String) (w : World) :
    util.NewLogger env level serviceName w =
      match env.Build (util.loggerConfig (util.levelOfString level) serviceName) with
      | some err => (.error (errors.Wrap err "Unable to initialize zap logger"), w)
      | none =>
        (.ok { logger := { base := { level := util.levelOfString level
                                     context := [("service", zap.Value.str serviceName)] } } },
         (zap.Logger.mk (util.levelOfString level) [("service", zap.Value.str serviceName)]).Debug
           "Logger Created"
           [("level", zap.Value.str (if util.levelOfString level = zap.Level.InfoLevel then "info"
                                     else level))] w) := by
  unfold util.NewLogger
  split
  rename_i lvl atom hm
  split at hm
  · simp only [Prod.mk.injEq] at hm
    obtain ⟨rfl, rfl⟩ := hm
    simp [util.levelOfString, util.loggerConfig, zap.Config.Build, zap.Config.logger,
      zap.Logger.Sugar]
    cases env.Build _ <;> rfl
  · simp only [Prod.mk.injEq] at hm
    obtain ⟨rfl, rfl⟩ := hm
    simp [util.levelOfString, util.loggerConfig, zap.Config.Build, zap.Config.logger,
      zap.Logger.Sugar]
    cases env.Build _ <;> rfl
  · simp only [Prod.mk.injEq] at hm
    obtain ⟨rfl, rfl⟩ := hm
    simp [util.levelOfString, util.loggerConfig, zap.Config.Build, zap.Config.logger,
      zap.Logger.Sugar]
    cases env.Build _ <;> rfl
  · simp only [Prod.mk.injEq] at hm
    obtain ⟨rfl, rfl⟩ := hm
    rename_i h1 h2 h3
    have e1 : ¬ level = "debug" := h1
    have e2 : ¬ level = "warn" := h2
    have e3 : ¬ level = "error" := h3
    simp [util.levelOfString, util.loggerConfig, zap.Config.Build, zap.Config.logger,
      zap.Logger.Sugar, e1, e2, e3]
    cases env.Build _ <;> rfl

/-- C2: for every level string, the logger that `NewLogger` returns has verbosity debug, warn or
error when the string is exactly that word and info for every other string; `NewLogger` returns a
logger whenever zap builds the configuration of that verbosity, and for a string other than the
three words it behaves exactly as for the string info, so an invalid level is never a reason to
fail. -/
theorem util.NewLogger_level {ρ : Type} (env : Env ρ) (level serviceName : String) (w : World) :
    (∀ l w1, util.NewLogger env level serviceName w = (.ok l, w1) →
        (level = "debug" → l.logger.base.level = zap.Level.DebugLevel) ∧
        (level = "warn" → l.logger.base.level = zap.Level.WarnLevel) ∧
        (level = "error" → l.logger.base.level = zap.Level.ErrorLevel) ∧
        (level ≠ "debug" → level ≠ "warn" → level ≠ "error" →
          l.logger.base.level = zap.Level.InfoLevel)) ∧
    (env.Build (util.loggerConfig (util.levelOfString level) serviceName) = none →
        ∃ l w1, util.NewLogger env level serviceName w = (.ok l, w1) ∧
          l.logger.base.level = util.levelOfString level) ∧
    (level ≠ "debug" → level ≠ "warn" → level ≠ "error" →
        util.NewLogger env level serviceName w = util.NewLogger env "info" serviceName w) := by
  refine ⟨?_, ?_, ?_⟩
  · intro l w1 h
    rw [util.NewLogger_eq] at h
    split at h
    · simp at h
    · simp only [Prod.mk.injEq, Except.ok.injEq] at h
      obtain ⟨rfl, -⟩ := h
      refine ⟨?_, ?_, ?_, ?_⟩
      · rintro rfl; rfl
      · rintro rfl; rfl
      · rintro rfl; rfl
      · intro h1 h2 h3
        simp [util.levelOfString, h1, h2, h3]
  · intro hb
    rw [util.NewLogger_eq, hb]
    exact ⟨_, _, rfl, rfl⟩
  · intro h1 h2 h3
    have hl : util.levelOfString level = zap.Level.InfoLevel := by
      simp [util.levelOfString, h1, h2, h3]
    have hi : util.levelOfString "info" = zap.Level.InfoLevel := by decide
    rw [util.NewLogger_eq, util.NewLogger_eq, hl, hi]
    simp

/-- Witness for C2: the differently-cased level DEBUG gives a logger of level info, exactly as
the level info does. -/
theorem util.NewLogger_level_witness :
    util.NewLogger Example.env "DEBUG" "order" Example.world =
      (.ok (Example.logger zap.Level.InfoLevel), Example.world) ∧
    (Example.logger zap.Level.InfoLevel).logger.base.level = zap.Level.InfoLevel ∧
    (∃ l w1, util.NewLogger Example.env "DEBUG" "order" Example.world = (.ok l, w1) ∧
        l.logger.base.level = util.levelOfString "DEBUG") ∧
    util.NewLogger Example.env "DEBUG" "order" Example.world =
      util.NewLogger Example.env "info" "order" Example.world :=
  ⟨rfl,
   ((util.NewLogger_level Example.env "DEBUG" "order" Example.world).1
      (Example.logger zap.Level.InfoLevel) Example.world rfl).2.2.2
      (by decide) (by decide) (by decide),
   (util.NewLogger_level Example.env "DEBUG" "order" Example.world).2.1 rfl,
   (util.NewLogger_level Example.env "DEBUG" "order" Example.world).2.2
     (by decide) (by decide) (by decide)⟩

/-! ### The logging middleware -/

/-- At which logger levels an entry of debug level and one of info level are written. -/
theorem zap.Level.enabled_debug_info (l : zap.Level) :
    (l.Enabled zap.Level.DebugLevel = true ↔ l = zap.Level.DebugLevel) ∧
    (l.Enabled zap.Level.InfoLevel = true ↔
      (l = zap.Level.DebugLevel ∨ l = zap.Level.InfoLevel)) := by
  cases l <;> simp [zap.Level.Enabled, zap.Level.toInt]

/-- C3, counterexample: with the logger that `NewLogger` creates for the level info, the handler
of `LoggerMiddleware` writes no line for the received request: after the request, standard output
holds the completed line only. -/
theorem util.LoggerMiddleware_info_received_not_emitted :
    (util.NewLogger Example.env "info" "order" Example.world).1 =
      .ok (Example.logger zap.Level.InfoLevel) ∧
    util.LoggerMiddleware Example.env Example.failing (Example.logger zap.Level.InfoLevel)
        Example.writer Example.request Example.world =
      ({ status := some 500, header := [], body := "" },
       Example.request,
       { now := 7
         stdout := [Output.entry
           { Level := zap.Level.InfoLevel
             Time := 7
             Message := "request completed"
             Fields := [("service", zap.Value.str "order"),
                        ("requestID", zap.Value.str "abc"),
                        ("address", zap.Value.str "10.0.0.1:5000"),
                        ("method", zap.Value.str "GET"),
                        ("path", zap.Value.str "/orders/1"),
                        ("duration", zap.Value.duration 7)] }]
         stderr := [] }) ∧
    (∀ o ∈ (util.LoggerMiddleware Example.env Example.failing
        (Example.logger zap.Level.InfoLevel) Example.writer Example.request
        Example.world).2.2.stdout,
      ∀ e, o = Output.entry e → e.Message ≠ "request received") := by
  refine ⟨rfl, rfl, ?_⟩
  intro o ho e he
  have hs : (util.LoggerMiddleware Example.env Example.failing
      (Example.logger zap.Level.InfoLevel) Example.writer Example.request
      Example.world).2.2.stdout =
      [Output.entry
        { Level := zap.Level.InfoLevel
          Time := 7
          Message := "request completed"
          Fields := [("service", zap.Value.str "order"),
                     ("requestID", zap.Value.str "abc"),
                     ("address", zap.Value.str "10.0.0.1:5000"),
                     ("method", zap.Value.str "GET"),
                     ("path", zap.Value.str "/orders/1"),
                     ("duration", zap.Value.duration 7)] }] := rfl
  rw [hs] at ho
  simp only [List.mem_singleton] at ho
  subst ho
  simp only [Output.entry.injEq] at he
  subst he
  decide

/-- C3, amended: for every logger, inner handler and request, the handler of `LoggerMiddleware`
logs the received request at debug level, then invokes the inner handler once with the same
response writer and request, then logs the completed request at info level, whatever the inner
handler wrote to the response. The received line is written exactly when the logger level is
debug, the completed line exactly when it is debug or info. -/
theorem util.LoggerMiddleware_order {ρ : Type} (env : Env ρ) (inner : http.Handler)
    (logger : util.Logger) (w : http.ResponseWriter) (r : http.Request) (s : World) :
    util.LoggerMiddleware env inner logger w r s =
      (let log := util.RequestIDLogger env logger r
       let s1 :=
         if logger.logger.base.level = zap.Level.DebugLevel then
           zap.Write
             { Level := zap.Level.DebugLevel
               Time := s.now
               Message := "request received"
               Fields := log.logger.base.context ++
                 [("address", zap.Value.str r.RemoteAddr),
                  ("method", zap.Value.str r.Method),
                  ("path", zap.Value.str r.RequestURI)] } s
         else s
       let res := inner w r s1
       let s3 :=
         if logger.logger.base.level = zap.Level.DebugLevel ∨
             logger.logger.base.level = zap.Level.InfoLevel then
           zap.Write
             { Level := zap.Level.InfoLevel
               Time := res.2.2.now
               Message := "request completed"
               Fields := log.logger.base.context ++
                 [("address", zap.Value.str res.2.1.RemoteAddr),
                  ("method", zap.Value.str res.2.1.Method),
                  ("path", zap.Value.str res.2.1.RequestURI),
                  ("duration", zap.Value.duration (res.2.2.now - s.now))] } res.2.2
         else res.2.2
       (res.1, res.2.1, s3)) := by
  have hd := (zap.Level.enabled_debug_info logger.logger.base.level).1
  have hi := (zap.Level.enabled_debug_info logger.logger.base.level).2
  simp only [util.LoggerMiddleware, util.Logger.Debugw, util.Logger.Infow,
    zap.SugaredLogger.Debugw, zap.SugaredLogger.Infow, zap.Logger.log, util.RequestIDLogger,
    zap.SugaredLogger.With, zap.Logger.With, time.Now, time.Since, hd, hi]

/-- C4, counterexample: with a logger of level debug and an inner handler that replaces the remote
address and the method of the request, as a handler for forwarded headers does, the completed
line carries the same requestID as the received line but another address and another method, so
its fields are not those of the received line plus the duration. -/
theorem util.LoggerMiddleware_completed_fields_differ :
    util.LoggerMiddleware Example.env Example.proxied (Example.logger zap.Level.DebugLevel)
        Example.writer Example.request Example.world =
      ({ status := some 200, header := [], body := "" },
       { RemoteAddr := "203.0.113.7:41000", Method := "PUT", RequestURI := "/orders/1",
         ctx := [("requestID", "abc")] },
       { now := 7
         stdout :=
           [Output.entry
             { Level := zap.Level.DebugLevel
               Time := 0
               Message := "request received"
               Fields := [("service", zap.Value.str "order"),
                          ("requestID", zap.Value.str "abc"),
                          ("address", zap.Value.str "10.0.0.1:5000"),
                          ("method", zap.Value.str "GET"),
                          ("path", zap.Value.str "/orders/1")] },
            Output.entry
             { Level := zap.Level.InfoLevel
               Time := 7
               Message := "request completed"
               Fields := [("service", zap.Value.str "order"),
                          ("requestID", zap.Value.str "abc"),
                          ("address", zap.Value.str "203.0.113.7:41000"),
                          ("method", zap.Value.str "PUT"),
                          ("path", zap.Value.str "/orders/1"),
                          ("duration", zap.Value.duration 7)] }]
         stderr := [] }) ∧
    ([("service", zap.Value.str "order"),
      ("requestID", zap.Value.str "abc"),
      ("address", zap.Value.str "203.0.113.7:41000"),
      ("method", zap.Value.str "PUT"),
      ("path", zap.Value.str "/orders/1"),
      ("duration", zap.Value.duration 7)] : List zap.Field) ≠
     [("service", zap.Value.str "order"),
      ("requestID", zap.Value.str "abc"),
      ("address", zap.Value.str "10.0.0.1:5000"),
      ("method", zap.Value.str "GET"),
      ("path", zap.Value.str "/orders/1")] ++ [("duration", zap.Value.duration 7)] := by
  refine ⟨rfl, ?_⟩
  decide

/-- C4, amended: for every logger, inner handler and request, the entries that the handler of
`LoggerMiddleware` hands to the sink for the received and for the completed request both carry the
fields of the logger and then requestID with the value of `RequestIDFromContext` on the context
that the request has when the handler starts. The received entry carries after it the address,
method and path of the request as the handler receives it; the completed entry carries the
address, method and path of the request as the inner handler leaves it, followed by the duration
elapsed since the handler started. When the inner handler leaves address, method and path as they
were, the fields of the completed entry are those of the received entry followed by the
duration. -/
theorem util.LoggerMiddleware_fields {ρ : Type} (env : Env ρ) (inner : http.Handler)
    (logger : util.Logger) (w : http.ResponseWriter) (r : http.Request) (s : World) :
    let correlation : List zap.Field :=
      logger.logger.base.context ++
        [("requestID", zap.Value.str (env.RequestIDFromContext r.ctx))]
    let received : zap.Entry :=
      { Level := zap.Level.DebugLevel, Time := s.now, Message := "request received",
        Fields := correlation ++
          [("address", zap.Value.str r.RemoteAddr),
           ("method", zap.Value.str r.Method),
           ("path", zap.Value.str r.RequestURI)] }
    let res := inner w r
      (if logger.logger.base.level.Enabled received.Level then zap.Write received s else s)
    let completed : zap.Entry :=
      { Level := zap.Level.InfoLevel, Time := res.2.2.now, Message := "request completed",
        Fields := correlation ++
          [("address", zap.Value.str res.2.1.RemoteAddr),
           ("method", zap.Value.str res.2.1.Method),
           ("path", zap.Value.str res.2.1.RequestURI),
           ("duration", zap.Value.duration (time.Since s.now res.2.2))] }
    util.LoggerMiddleware env inner logger w r s =
      (res.1, res.2.1,
       if logger.logger.base.level.Enabled completed.Level then zap.Write completed res.2.2
       else res.2.2) ∧
    (res.2.1.RemoteAddr = r.RemoteAddr → res.2.1.Method = r.Method →
      res.2.1.RequestURI = r.RequestURI →
      completed.Fields =
        received.Fields ++ [("duration", zap.Value.duration (time.Since s.now res.2.2))]) := by
  intro correlation received res completed
  constructor
  · simp [util.LoggerMiddleware, util.Logger.Debugw, util.Logger.Infow,
      zap.SugaredLogger.Debugw, zap.SugaredLogger.Infow, zap.Logger.log, util.RequestIDLogger,
      zap.SugaredLogger.With, zap.Logger.With, time.Now, time.Since, http.Request.Context,
      res, completed, received, correlation]
  · intro h1 h2 h3
    simp [completed, received, h1, h2, h3]

/-- Witness for C4: with a logger of level debug and an inner handler that leaves the request as
it is, both lines are written and the fields of the completed line are those of the received line
followed by the duration. -/
theorem util.LoggerMiddleware_fields_witness :
    util.LoggerMiddleware Example.env Example.failing (Example.logger zap.Level.DebugLevel)
        Example.writer Example.request Example.world =
      ({ status := some 500, header := [], body := "" },
       Example.request,
       { now := 7
         stdout :=
           [Output.entry
             { Level := zap.Level.DebugLevel
               Time := 0
               Message := "request received"
               Fields := [("service", zap.Value.str "order"),
                          ("requestID", zap.Value.str "abc"),
                          ("address", zap.Value.str "10.0.0.1:5000"),
                          ("method", zap.Value.str "GET"),
                          ("path", zap.Value.str "/orders/1")] },
            Output.entry
             { Level := zap.Level.InfoLevel
               Time := 7
               Message := "request completed"
               Fields := [("service", zap.Value.str "order"),
                          ("requestID", zap.Value.str "abc"),
                          ("address", zap.Value.str "10.0.0.1:5000"),
                          ("method", zap.Value.str "GET"),
                          ("path", zap.Value.str "/orders/1"),
                          ("duration", zap.Value.duration 7)] }]
         stderr := [] }) ∧
    ([("service", zap.Value.str "order"),
      ("requestID", zap.Value.str "abc"),
      ("address", zap.Value.str "10.0.0.1:5000"),
      ("method", zap.Value.str "GET"),
      ("path", zap.Value.str "/orders/1"),
      ("duration", zap.Value.duration 7)] : List zap.Field) =
     [("service", zap.Value.str "order"),
      ("requestID", zap.Value.str "abc"),
      ("address", zap.Value.str "10.0.0.1:5000"),
      ("method", zap.Value.str "GET"),
      ("path", zap.Value.str "/orders/1")] ++ [("duration", zap.Value.duration 7)] :=
  ⟨(util.LoggerMiddleware_fields Example.env Example.failing
      (Example.logger zap.Level.DebugLevel) Example.writer Example.request Example.world).1,
   (util.LoggerMiddleware_fields Example.env Example.failing
      (Example.logger zap.Level.DebugLevel) Example.writer Example.request Example.world).2
      rfl rfl rfl⟩

/-! ### Server construction -/

/-- What `NewServer` computes, for every option list: an error when the default logger cannot be
built, and otherwise the default server, with the world unchanged. -/
theorem order.NewServer_eq {ρ : Type} (env : Env ρ) (options : List (order.ServerOptions ρ))
    (w : World) :
    order.NewServer env options w =
      match env.Build (util.loggerConfig zap.Level.InfoLevel order.serviceName) with
      | some err =>
        (.error (errors.Wrap (errors.Wrap err "Unable to initialize zap logger")
          "unable to create Logger"), w)
      | none =>
        (.ok { address := ":8090"
               endpoint := "http://127.0.0.1:8091"
               itemService := "http://127.0.0.1:8080"
               redis := (order.NewRedisClient env "redis://127.0.0.1:6380/0").toOption
               logger := { logger := { base :=
                 { level := zap.Level.InfoLevel
                   context := [("service", zap.Value.str order.serviceName)] } } }
               router := env.NewRouter
               promReg := prometheus.NewRegistry }, w) := by
  have hi : util.levelOfString "info" = zap.Level.InfoLevel := by decide
  unfold order.NewServer
  rw [util.NewLogger_eq, hi]
  cases env.Build (util.loggerConfig zap.Level.InfoLevel order.serviceName) with
  | some err => rfl
  | none =>
    cases h : order.NewRedisClient env "redis://127.0.0.1:6380/0" <;>
      simp [h, Except.toOption, zap.Logger.Debug, zap.Logger.log, zap.Level.Enabled,
        zap.Level.toInt]

/-- C6, evaluation of the code: `NewServer` never reads its options. For every option list the
result is that of the empty list; an option that sets the listen address leaves the address at
its default, and an option that fails does not make `NewServer` fail. -/
theorem order.NewServer_options_ignored :
    (∀ (ρ : Type) (env : Env ρ) (options : List (order.ServerOptions ρ)) (w : World),
        order.NewServer env options w = order.NewServer env [] w) ∧
    Example.setAddress ":9999" Example.server = .ok { Example.server with address := ":9999" } ∧
    order.NewServer Example.env [Example.setAddress ":9999"] Example.world =
      (.ok Example.server, Example.world) ∧
    Example.server.address = ":8090" ∧
    Example.badOption Example.server = .error "bad option" ∧
    order.NewServer Example.env [Example.badOption] Example.world =
      (.ok Example.server, Example.world) := by
  refine ⟨?_, rfl, rfl, rfl, rfl, rfl⟩
  intro ρ env options w
  rw [order.NewServer_eq, order.NewServer_eq]

/-- C7: for every address, `NewRedisClient` fails exactly when `redis.ParseURL` fails, and then
with the error of `ParseURL`; otherwise it returns a client created from the address, the password
and the database number that `ParseURL` gave. -/
theorem order.NewRedisClient_spec {ρ : Type} (env : Env ρ) (addr : String) :
    ((∃ err, order.NewRedisClient env addr = .error err) ↔
      (∃ err, env.ParseURL addr = .error err)) ∧
    (∀ err, env.ParseURL addr = .error err → order.NewRedisClient env addr = .error err) ∧
    (∀ opt, env.ParseURL addr = .ok opt →
      ∃ c, order.NewRedisClient env addr = .ok c ∧
        c.opt.Addr = opt.Addr ∧ c.opt.Password = opt.Password ∧ c.opt.DB = opt.DB) := by
  unfold order.NewRedisClient
  cases h : env.ParseURL addr with
  | error e => simp
  | ok opt => simp [redis.NewClient]

/-- Witness for C7: where `ParseURL` reads the URL of the source comment as host localhost:6379,
password qwerty and database 1, the client has this address, password and database; an address
that does not parse gives the error of `ParseURL`. -/
theorem order.NewRedisClient_spec_witness :
    (∃ c, order.NewRedisClient Example.env "redis://:qwerty@localhost:6379/1" = .ok c ∧
        c.opt.Addr = "localhost:6379" ∧ c.opt.Password = "qwerty" ∧ c.opt.DB = 1) ∧
    order.NewRedisClient Example.env "localhost:6379" = .error "invalid redis URL" :=
  ⟨(order.NewRedisClient_spec Example.env "redis://:qwerty@localhost:6379/1").2.2
      { Network := "tcp", Addr := "localhost:6379", Password := "qwerty", DB := 1 } rfl,
   (order.NewRedisClient_spec Example.env "localhost:6379").2.1 "invalid redis URL" rfl⟩

/-- C8, evaluation of the code: the server that `NewServer` constructs without options has the
listen address and the item-service address of the flag defaults, its redis client is created
from the redis address of the flag defaults and its logger has the level of the default log
level, but its endpoint is http://127.0.0.1:8091 while the flag default is 127.0.0.1:9091. -/
theorem order.NewServer_defaults_vs_flags {ρ : Type} (env : Env ρ) (w w1 : World)
    (s : order.Server ρ) (h : order.NewServer env [] w = (.ok s, w1)) :
    s.address = cmd.Flags.defaults.address ∧
    s.itemService = cmd.Flags.defaults.item ∧
    s.redis = (order.NewRedisClient env cmd.Flags.defaults.redis).toOption ∧
    s.logger.logger.base.level = util.levelOfString cmd.Flags.defaults.logLevel ∧
    s.logger.logger.base.level = zap.Level.InfoLevel ∧
    s.endpoint = "http://127.0.0.1:8091" ∧
    cmd.Flags.defaults.endpoint = "127.0.0.1:9091" ∧
    s.endpoint ≠ cmd.Flags.defaults.endpoint := by
  rw [order.NewServer_eq] at h
  split at h
  · simp at h
  · simp only [Prod.mk.injEq, Except.ok.injEq] at h
    obtain ⟨rfl, -⟩ := h
    have hl : util.levelOfString cmd.Flags.defaults.logLevel = zap.Level.InfoLevel := by decide
    refine ⟨rfl, rfl, rfl, hl.symm, rfl, rfl, rfl, ?_⟩
    simp [cmd.Flags.defaults]

/-- Witness for C8: the server constructed in the example environment. -/
theorem order.NewServer_defaults_vs_flags_witness :
    order.NewServer Example.env [] Example.world = (.ok Example.server, Example.world) ∧
    Example.server.address = cmd.Flags.defaults.address ∧
    Example.server.endpoint = "http://127.0.0.1:8091" ∧
    Example.server.endpoint ≠ cmd.Flags.defaults.endpoint :=
  ⟨rfl,
   (order.NewServer_defaults_vs_flags Example.env Example.world Example.world Example.server
      rfl).1,
   (order.NewServer_defaults_vs_flags Example.env Example.world Example.world Example.server
      rfl).2.2.2.2.2.1,
   (order.NewServer_defaults_vs_flags Example.env Example.world Example.world Example.server
      rfl).2.2.2.2.2.2.2⟩

/-! ### The Prometheus registry -/

/-- When `MustRegister` does not panic, the collectors were appended in order and none of them
was in the registry before. -/
theorem prometheus.Registry.MustRegister_ok (cs : List prometheus.Collector) :
    ∀ (r r1 : prometheus.Registry), prometheus.Registry.MustRegister r cs = .ok r1 →
      r1 = r ++ cs ∧ ∀ c ∈ cs, c ∉ r := by
  induction cs with
  | nil =>
    intro r r1 h
    simp only [prometheus.Registry.MustRegister, Except.ok.injEq] at h
    simp [h]
  | cons c cs ih =>
    intro r r1 h
    simp only [prometheus.Registry.MustRegister, prometheus.Registry.Register] at h
    by_cases hc : c ∈ r
    · simp [hc] at h
    · simp only [hc, if_false] at h
      obtain ⟨h1, h2⟩ := ih _ _ h
      refine ⟨by simp [h1], ?_⟩
      intro x hx
      rcases List.mem_cons.1 hx with rfl | hx
      · exact hc
      · intro hxr
        exact h2 x hx (List.mem_append_left _ hxr)

/-- On a server whose registry is not empty `InitPromReg` panics: a collector that it registers is
already registered. -/
theorem order.InitPromReg_nonempty_panics {ρ : Type} (s : order.Server ρ)
    (h : s.promReg ≠ prometheus.NewRegistry) :
    ∃ err, s.InitPromReg = .error err := by
  cases hr : s.InitPromReg with
  | error e => exact ⟨e, rfl⟩
  | ok s1 =>
    exfalso
    unfold order.Server.InitPromReg at hr
    split at hr
    · simp at hr
    · rename_i reg hm
      obtain ⟨-, hno⟩ := prometheus.Registry.MustRegister_ok _ _ _ hm
      apply h
      apply List.eq_nil_iff_forall_not_mem.2
      intro c
      apply hno
      cases c <;>
        simp [prometheus.NewGoCollector, prometheus.NewProcessCollector, order.rm]

/-- C9: whenever `InitPromReg` returns, the registry of the server holds exactly six collectors:
the Go runtime collector, the process collector, the in-flight gauge, the request counter, the
duration histogram and the response-size histogram, and no other field of the server has changed.
It does return on a server whose registry is empty, as `NewServer` constructs it. -/
theorem order.InitPromReg_registers_six {ρ : Type} (s : order.Server ρ) :
    (s.promReg = prometheus.NewRegistry → ∃ s1, s.InitPromReg = .ok s1) ∧
    (∀ s1, s.InitPromReg = .ok s1 →
      s1 = { s with promReg :=
        [prometheus.Collector.GoCollector,
         prometheus.Collector.ProcessCollector,
         prometheus.Collector.InFlightGauge,
         prometheus.Collector.Counter,
         prometheus.Collector.Duration,
         prometheus.Collector.ResponseSize] } ∧
      s1.promReg.length = 6 ∧
      (∀ c : prometheus.Collector, c ∈ s1.promReg) ∧ s1.promReg.Nodup ∧
      s1.address = s.address ∧ s1.endpoint = s.endpoint ∧ s1.itemService = s.itemService ∧
      s1.redis = s.redis ∧ s1.redisOps = s.redisOps ∧ s1.server = s.server ∧
      s1.router = s.router ∧ s1.logger = s.logger) := by
  have h1 : s.promReg = prometheus.NewRegistry → s.InitPromReg =
      .ok { s with promReg :=
        [prometheus.Collector.GoCollector,
         prometheus.Collector.ProcessCollector,
         prometheus.Collector.InFlightGauge,
         prometheus.Collector.Counter,
         prometheus.Collector.Duration,
         prometheus.Collector.ResponseSize] } := by
    intro h
    unfold order.Server.InitPromReg
    rw [h]
    rfl
  refine ⟨fun h => ⟨_, h1 h⟩, ?_⟩
  intro s1 hs
  by_cases h : s.promReg = prometheus.NewRegistry
  · rw [h1 h] at hs
    simp only [Except.ok.injEq] at hs
    subst hs
    refine ⟨rfl, rfl, ?_, ?_, rfl, rfl, rfl, rfl, rfl, rfl, rfl, rfl⟩
    · intro c
      cases c <;> simp
    · simp
  · obtain ⟨err, he⟩ := order.InitPromReg_nonempty_panics s h
    rw [he] at hs
    simp at hs

/-- Witness for C9: on the server that `NewServer` constructs in the example environment,
`InitPromReg` returns and the registry then holds the six collectors. -/
theorem order.InitPromReg_registers_six_witness :
    order.NewServer Example.env [] Example.world = (.ok Example.server, Example.world) ∧
    (∃ s1, Example.server.InitPromReg = .ok s1) ∧
    { Example.server with promReg :=
        [prometheus.Collector.GoCollector,
         prometheus.Collector.ProcessCollector,
         prometheus.Collector.InFlightGauge,
         prometheus.Collector.Counter,
         prometheus.Collector.Duration,
         prometheus.Collector.ResponseSize] }.promReg.length = 6 :=
  ⟨rfl, (order.InitPromReg_registers_six Example.server).1 rfl,
   ((order.InitPromReg_registers_six Example.server).2 _ rfl).2.1⟩

/-! ### The command-line flags -/

/-- C10: the flag variables, the command and the arguments do not influence `runServer`: for any
two settings, with the same `NewServer`, `Run` and world, `runServer` and `Execute` end the same
way, and the server passed to `Run` is the same. `runServer` consults `NewServer` at the empty
option list only. The server that `order.NewServer` constructs there has the default address,
endpoint and item service, the redis client of the default redis address and a logger of level
info. -/
theorem cmd.runServer_flags_irrelevant {ρ : Type}
    (NewServer : List (order.ServerOptions ρ) → World → Except GoError (order.Server ρ) × World)
    (Run : order.Server ρ → World → Option GoError × World)
    (vars1 vars2 : cmd.Flags) (c1 c2 : cmd.Command) (args1 args2 : List String) (w : World) :
    cmd.runServer NewServer Run vars1 c1 args1 w = cmd.runServer NewServer Run vars2 c2 args2 w ∧
    cmd.Execute NewServer Run (.run vars1 args1) w =
      cmd.Execute NewServer Run (.run vars2 args2) w ∧
    (∀ NewServer2, NewServer2 [] w = NewServer [] w →
      cmd.runServer NewServer2 Run vars1 c1 args1 w =
        cmd.runServer NewServer Run vars1 c1 args1 w) ∧
    (∀ (env : Env ρ) s w1, order.NewServer env [] w = (.ok s, w1) →
      s.address = ":8090" ∧ s.endpoint = "http://127.0.0.1:8091" ∧
      s.itemService = "http://127.0.0.1:8080" ∧
      s.redis = (order.NewRedisClient env "redis://127.0.0.1:6380/0").toOption ∧
      s.logger.logger.base.level = zap.Level.InfoLevel) := by
  refine ⟨rfl, rfl, ?_, ?_⟩
  · intro NewServer2 h
    simp only [cmd.runServer, h]
  · intro env s w1 h
    rw [order.NewServer_eq] at h
    split at h
    · simp at h
    · simp only [Prod.mk.injEq, Except.ok.injEq] at h
      obtain ⟨rfl, -⟩ := h
      exact ⟨rfl, rfl, rfl, rfl, rfl⟩

/-- Witness for C10: with every flag changed and arguments given, `runServer` still hands the
default server to `Run`. -/
theorem cmd.runServer_flags_irrelevant_witness :
    cmd.runServer (order.NewServer Example.env) Example.runFails cmd.Flags.defaults
        cmd.rootCommand [] Example.world =
      cmd.runServer (order.NewServer Example.env) Example.runFails
        { address := ":1", endpoint := "e", logLevel := "debug", redis := "redis://h:1/2",
          item := "http://i" }
        cmd.rootCommand ["x"] Example.world ∧
    cmd.runServer (fun _ w => order.NewServer Example.env [] w) Example.runFails
        cmd.Flags.defaults cmd.rootCommand [] Example.world =
      cmd.runServer (order.NewServer Example.env) Example.runFails cmd.Flags.defaults
        cmd.rootCommand [] Example.world ∧
    (Example.server.address = ":8090" ∧ Example.server.endpoint = "http://127.0.0.1:8091" ∧
      Example.server.itemService = "http://127.0.0.1:8080" ∧
      Example.server.redis =
        (order.NewRedisClient Example.env "redis://127.0.0.1:6380/0").toOption ∧
      Example.server.logger.logger.base.level = zap.Level.InfoLevel) :=
  ⟨(cmd.runServer_flags_irrelevant (order.NewServer Example.env) Example.runFails
      cmd.Flags.defaults _ cmd.rootCommand cmd.rootCommand [] ["x"] Example.world).1,
   (cmd.runServer_flags_irrelevant (order.NewServer Example.env) Example.runFails
      cmd.Flags.defaults cmd.Flags.defaults cmd.rootCommand cmd.rootCommand [] []
      Example.world).2.2.1 _ rfl,
   (cmd.runServer_flags_irrelevant (order.NewServer Example.env) Example.runFails
      cmd.Flags.defaults cmd.Flags.defaults cmd.rootCommand cmd.rootCommand [] []
      Example.world).2.2.2 Example.env Example.server Example.world rfl⟩
